import Mathlib

/-!
Verification of the OfficeCAD parametric panel/bracket generators
(`generate_rack_panel.py` and `prusa_rack_brackets.py`) against their
natural-language specification.  The Python scripts drive a CAD backend;
here the numeric parameter set, the profile builders, the coordinate-frame
mapping, the face selector, the feature sequencing and the mirror
operations are embedded shallowly and the spec claims are settled as
theorems.
-/

namespace OfficeCAD

/-! ## Parameter set (from `generate_rack_panel.py`) -/

/-- RACK_1U_HEIGHT = 44.45 mm. -/
def RACK_1U_HEIGHT : ℚ := 44.45

/-- PANEL_WIDTH = 212.0 mm. -/
def PANEL_WIDTH : ℚ := 212.0

/-- FACE_PLATE_THICKNESS = 4.0 mm. -/
def FACE_PLATE_THICKNESS : ℚ := 4.0

/-- WALL_THICKNESS = 4.0 mm. -/
def WALL_THICKNESS : ℚ := 4.0

/-- SHELF_DEPTH = 34.0 mm. -/
def SHELF_DEPTH : ℚ := 34.0

/-- NUT_ACROSS_FLATS = 5.5 mm (M3 hex nut). -/
def NUT_ACROSS_FLATS : ℚ := 5.5

/-- NUT_RECESS_DEPTH = 1.5 mm (shallow recess on panel back). -/
def NUT_RECESS_DEPTH : ℚ := 1.5

/-- M3_CLEARANCE_RADIUS = 1.6 mm. -/
def M3_CLEARANCE_RADIUS : ℚ := 1.6

/-- JOINT_SCREW_X = 7.0 mm. -/
def JOINT_SCREW_X : ℚ := 7.0

/-- JOINT_SCREW_Y_POSITIONS = [11.0, 33.45]. -/
def JOINT_SCREW_Y_POSITIONS : List ℚ := [11.0, 33.45]

/-- WALL_SLOT_LENGTH = 12.0 mm. -/
def WALL_SLOT_LENGTH : ℚ := 12.0

/-- WALL_SLOT_WIDTH = 3.4 mm. -/
def WALL_SLOT_WIDTH : ℚ := 3.4

/-- WALL_SLOT_Z_CENTER = 12.0 mm. -/
def WALL_SLOT_Z_CENTER : ℚ := 12.0

/-- WALL_SLOT_X_CENTERS = [31.0, 101.0, 115.0, 185.0]. -/
def WALL_SLOT_X_CENTERS : List ℚ := [31.0, 101.0, 115.0, 185.0]

/-- SIDEBAR_WIDTH = 8.0 mm. -/
def SIDEBAR_WIDTH : ℚ := 8.0

/-- SIDEBAR_HEIGHT = 36.0 mm. -/
def SIDEBAR_HEIGHT : ℚ := 36.0

/-- SIDEBAR_DEPTH = 12.0 mm. -/
def SIDEBAR_DEPTH : ℚ := 12.0

/-! ## C1: the regular hexagon used for nut recesses

`HEX_CIRCUMRADIUS = NUT_ACROSS_FLATS / (2 * math.cos(math.radians(30)))` and
the `NutRecessSketch` loop places vertex `j` at angle `radians(60*j + 30)`
on that circle around the hole centre `(x, y)`. -/

/-- Circumradius of the nut-recess hexagon for across-flats `a`:
`a / (2 * cos(radians 30))`, as in `HEX_CIRCUMRADIUS`. -/
noncomputable def hexCircumradius (a : ℝ) : ℝ :=
  a / (2 * Real.cos (30 * Real.pi / 180))

/-- Angle (radians) of hexagon vertex `j`: `math.radians(60 * j + 30)`
from the `NutRecessSketch` loop. -/
noncomputable def hexAngle (j : ℕ) : ℝ :=
  (60 * (j : ℝ) + 30) * Real.pi / 180

/-- Vertex `j` of the nut-recess hexagon centred at `(cx, cy)` with
across-flats `a`, exactly as generated by the `NutRecessSketch` loop. -/
noncomputable def hexVertex (cx cy a : ℝ) (j : ℕ) : ℝ × ℝ :=
  (cx + hexCircumradius a * Real.cos (hexAngle j),
   cy + hexCircumradius a * Real.sin (hexAngle j))

/-- Euclidean distance between two planar points. -/
noncomputable def pointDist (p q : ℝ × ℝ) : ℝ :=
  Real.sqrt ((p.1 - q.1) ^ 2 + (p.2 - q.2) ^ 2)

/-- Midpoint of the hexagon flat joining vertex `j` to vertex `(j+1) % 6`. -/
noncomputable def flatMidpoint (cx cy a : ℝ) (j : ℕ) : ℝ × ℝ :=
  (((hexVertex cx cy a j).1 + (hexVertex cx cy a ((j + 1) % 6)).1) / 2,
   ((hexVertex cx cy a j).2 + (hexVertex cx cy a ((j + 1) % 6)).2) / 2)

lemma cos_thirty_deg : Real.cos (30 * Real.pi / 180) = Real.sqrt 3 / 2 := by
  rw [show (30 : ℝ) * Real.pi / 180 = Real.pi / 6 by ring, Real.cos_pi_div_six]

lemma sqrt_three_pos : 0 < Real.sqrt 3 := Real.sqrt_pos.mpr (by norm_num)

lemma cos_thirty_deg_pos : 0 < Real.cos (30 * Real.pi / 180) := by
  rw [cos_thirty_deg]; positivity

lemma hexCircumradius_pos {a : ℝ} (ha : 0 < a) : 0 < hexCircumradius a := by
  unfold hexCircumradius
  exact div_pos ha (by have := cos_thirty_deg_pos; linarith)

/-- Every hexagon vertex lies at distance exactly `hexCircumradius a`
from the centre. -/
lemma hexVertex_dist (cx cy a : ℝ) (ha : 0 < a) (j : ℕ) :
    pointDist (hexVertex cx cy a j) (cx, cy) = hexCircumradius a := by
  have hr := hexCircumradius_pos ha
  set r := hexCircumradius a with hrdef
  have hpyth := Real.sin_sq_add_cos_sq (hexAngle j)
  have hkey : (cx + r * Real.cos (hexAngle j) - cx) ^ 2
      + (cy + r * Real.sin (hexAngle j) - cy) ^ 2 = r ^ 2 := by
    nlinarith [hpyth]
  unfold pointDist hexVertex
  simp only
  rw [hkey]
  exact Real.sqrt_sq hr.le

lemma hexAngle_zero : hexAngle 0 = Real.pi / 6 := by
  unfold hexAngle; push_cast; ring

lemma hexAngle_step (j : ℕ) : hexAngle (j + 1) - hexAngle j = Real.pi / 3 := by
  unfold hexAngle; push_cast; ring

lemma hexAngle_two : hexAngle 2 = Real.pi - Real.pi / 6 := by
  unfold hexAngle; push_cast; ring

lemma hexAngle_three : hexAngle 3 = Real.pi + Real.pi / 6 := by
  unfold hexAngle; push_cast; ring

lemma hexAngle_five : hexAngle 5 = 2 * Real.pi - Real.pi / 6 := by
  unfold hexAngle; push_cast; ring

lemma cos_hexAngle_zero : Real.cos (hexAngle 0) = Real.sqrt 3 / 2 := by
  rw [hexAngle_zero, Real.cos_pi_div_six]

lemma sin_hexAngle_zero : Real.sin (hexAngle 0) = 1 / 2 := by
  rw [hexAngle_zero, Real.sin_pi_div_six]

lemma cos_hexAngle_two : Real.cos (hexAngle 2) = -(Real.sqrt 3 / 2) := by
  rw [hexAngle_two, Real.cos_pi_sub, Real.cos_pi_div_six]

lemma sin_hexAngle_two : Real.sin (hexAngle 2) = 1 / 2 := by
  rw [hexAngle_two, Real.sin_pi_sub, Real.sin_pi_div_six]

lemma cos_hexAngle_three : Real.cos (hexAngle 3) = -(Real.sqrt 3 / 2) := by
  rw [hexAngle_three, Real.cos_add, Real.cos_pi, Real.sin_pi, Real.cos_pi_div_six]
  ring

lemma sin_hexAngle_three : Real.sin (hexAngle 3) = -(1 / 2) := by
  rw [hexAngle_three, Real.sin_add, Real.cos_pi, Real.sin_pi, Real.sin_pi_div_six]
  ring

lemma cos_hexAngle_five : Real.cos (hexAngle 5) = Real.sqrt 3 / 2 := by
  rw [hexAngle_five, Real.cos_sub, Real.cos_two_pi, Real.sin_two_pi,
    Real.cos_pi_div_six]
  ring

lemma sin_hexAngle_five : Real.sin (hexAngle 5) = -(1 / 2) := by
  rw [hexAngle_five, Real.sin_sub, Real.cos_two_pi, Real.sin_two_pi,
    Real.sin_pi_div_six]
  ring

lemma hexCircumradius_sqrt3 (a : ℝ) :
    hexCircumradius a * Real.sqrt 3 = a := by
  unfold hexCircumradius
  rw [cos_thirty_deg]
  have h3 : Real.sqrt 3 ≠ 0 := ne_of_gt sqrt_three_pos
  rw [show (2 : ℝ) * (Real.sqrt 3 / 2) = Real.sqrt 3 by ring,
    div_mul_cancel₀ a h3]

/-- The flat joining vertices 5 and 0 has midpoint `(cx + a/2, cy)`. -/
lemma flatMidpoint_five (cx cy a : ℝ) :
    flatMidpoint cx cy a 5 = (cx + a / 2, cy) := by
  have h6 : (5 + 1) % 6 = 0 := by norm_num
  have hs3 := hexCircumradius_sqrt3 a
  unfold flatMidpoint hexVertex
  rw [h6, cos_hexAngle_five, sin_hexAngle_five, cos_hexAngle_zero,
    sin_hexAngle_zero]
  simp only [Prod.mk.injEq]
  constructor
  · nlinarith [hs3]
  · ring

/-- The flat joining vertices 2 and 3 has midpoint `(cx - a/2, cy)`. -/
lemma flatMidpoint_two (cx cy a : ℝ) :
    flatMidpoint cx cy a 2 = (cx - a / 2, cy) := by
  have h6 : (2 + 1) % 6 = 3 := by norm_num
  have hs3 := hexCircumradius_sqrt3 a
  unfold flatMidpoint hexVertex
  rw [h6, cos_hexAngle_two, sin_hexAngle_two, cos_hexAngle_three,
    sin_hexAngle_three]
  simp only [Prod.mk.injEq]
  constructor
  · nlinarith [hs3]
  · ring

/-- Numerical scenario: across-flats 5.5 mm gives circumradius within
0.001 of 3.1754 mm. -/
lemma hexCircumradius_numeric :
    |hexCircumradius 5.5 - 3.1754| < 1 / 1000 := by
  have hlt : Real.sqrt 3 < 1.7321 :=
    (Real.sqrt_lt' (by norm_num)).mpr (by norm_num)
  have hgt : (1.732 : ℝ) < Real.sqrt 3 :=
    (Real.lt_sqrt (by norm_num)).mpr (by norm_num)
  have hs := sqrt_three_pos
  have hval : hexCircumradius 5.5 * Real.sqrt 3 = 5.5 :=
    hexCircumradius_sqrt3 5.5
  rw [abs_lt]
  constructor
  · nlinarith [hval]
  · nlinarith [hval]

/-- C1: for every across-flats value a > 0, the nut-recess hexagon has its
six vertices on a circle of circumradius exactly a / (2·cos 30°), placed at
60° angular increments starting at a 30° phase offset, opposite flat
midpoints are separated by exactly a, and for a = 5.5 the circumradius is
within 0.001 of 3.1754. -/
theorem hex_recess_geometry (cx cy a : ℝ) (ha : 0 < a) :
    (∀ j : ℕ, pointDist (hexVertex cx cy a j) (cx, cy) = hexCircumradius a)
    ∧ hexAngle 0 = Real.pi / 6
    ∧ (∀ j : ℕ, hexAngle (j + 1) - hexAngle j = Real.pi / 3)
    ∧ pointDist (flatMidpoint cx cy a 5) (flatMidpoint cx cy a 2) = a
    ∧ |hexCircumradius 5.5 - 3.1754| < 1 / 1000 := by
  refine ⟨fun j => hexVertex_dist cx cy a ha j, hexAngle_zero,
    fun j => hexAngle_step j, ?_, hexCircumradius_numeric⟩
  rw [flatMidpoint_five, flatMidpoint_two]
  unfold pointDist
  simp only
  have hsq : (cx + a / 2 - (cx - a / 2)) ^ 2 + (cy - cy) ^ 2 = a ^ 2 := by
    ring
  rw [hsq]
  exact Real.sqrt_sq ha.le

/-- Witness for C1 at the concrete across-flats value 5.5 used by the
script. -/
theorem hex_recess_geometry_witness :
    (0 : ℝ) < 5.5 ∧
    ((∀ j : ℕ, pointDist (hexVertex 10 20 5.5 j) (10, 20) = hexCircumradius 5.5)
    ∧ hexAngle 0 = Real.pi / 6
    ∧ (∀ j : ℕ, hexAngle (j + 1) - hexAngle j = Real.pi / 3)
    ∧ pointDist (flatMidpoint 10 20 5.5 5) (flatMidpoint 10 20 5.5 2) = 5.5
    ∧ |hexCircumradius 5.5 - 3.1754| < 1 / 1000) :=
  ⟨by norm_num, hex_recess_geometry 10 20 5.5 (by norm_num)⟩

/-! ## C2: coordinate frame mapping

`build_side_bar` derives the sketch-u sign from the realized placement
(`u_axis = rot.multVec(Vector(1,0,0))`, then `if abs(u_axis.x + 1.0) < 0.01`),
while `add_wall_slots` hardcodes `su = -(gx + slot_length/2)` under the
authoring-time comment "UV mapping: u_axis = -X". -/

/-- A global 3D point/vector in millimetres. -/
structure Vec3 where
  x : ℝ
  y : ℝ
  z : ℝ

/-- Componentwise difference. -/
noncomputable def Vec3.sub (v w : Vec3) : Vec3 := ⟨v.x - w.x, v.y - w.y, v.z - w.z⟩

/-- Euclidean dot product. -/
noncomputable def Vec3.dot (v w : Vec3) : ℝ := v.x * w.x + v.y * w.y + v.z * w.z

/-- Modelled from the spec: a face-local sketch frame (the Coordinate
Frame Mapper of section 4.2); the realized placement of a sketch attached
to a face — an origin plus the realized u and v axes
(`sk.getGlobalPlacement()` in `build_side_bar`). -/
structure PlanarFrame where
  origin : Vec3
  uax : Vec3
  vax : Vec3

/-- Modelled from the spec: `from_local(face_placement, u, v)` — the
global point of sketch coordinates (u, v). -/
noncomputable def fromLocal (F : PlanarFrame) (u v : ℝ) : Vec3 :=
  ⟨F.origin.x + u * F.uax.x + v * F.vax.x,
   F.origin.y + u * F.uax.y + v * F.vax.y,
   F.origin.z + u * F.uax.z + v * F.vax.z⟩

/-- Modelled from the spec: `to_local(face_placement, global_point)`. -/
noncomputable def toLocal (F : PlanarFrame) (p : Vec3) : ℝ × ℝ :=
  ((p.sub F.origin).dot F.uax, (p.sub F.origin).dot F.vax)

/-- The frame's axes are unit length and mutually perpendicular, as
realized sketch placements are. -/
def Orthonormal (F : PlanarFrame) : Prop :=
  F.uax.dot F.uax = 1 ∧ F.vax.dot F.vax = 1 ∧ F.uax.dot F.vax = 0

/-- `p` lies in the face plane of frame `F`. -/
def InPlane (F : PlanarFrame) (p : Vec3) : Prop :=
  ∃ u v, p = fromLocal F u v

lemma toLocal_fromLocal (F : PlanarFrame) (hF : Orthonormal F) (u v : ℝ) :
    toLocal F (fromLocal F u v) = (u, v) := by
  obtain ⟨h1, h2, h3⟩ := hF
  unfold Vec3.dot at h1 h2 h3
  unfold toLocal fromLocal Vec3.sub Vec3.dot
  simp only [Prod.mk.injEq]
  constructor
  · linear_combination u * h1 + v * h3
  · linear_combination u * h3 + v * h2

/-- Sketch u chosen by `build_side_bar` for the nut-recess centre: derived
at call time from the realized u-axis x component
(`if abs(u_axis.x + 1.0) < 0.01: su = -cx_bar else: su = cx_bar`). -/
noncomputable def sideBarSU (uaxisX cx : ℝ) : ℝ :=
  if |uaxisX + 1| < 0.01 then -cx else cx

/-- Realized frame of the side bar's top face: u = -X, v = +Z,
origin at (0, SIDEBAR_HEIGHT, 0). -/
noncomputable def sideBarTopFrame : PlanarFrame :=
  ⟨⟨0, (SIDEBAR_HEIGHT : ℝ), 0⟩, ⟨-1, 0, 0⟩, ⟨0, 0, 1⟩⟩

/-- Realized frame of the side bar's bottom face: u = +X, v = +Z. -/
noncomputable def sideBarBottomFrame : PlanarFrame :=
  ⟨⟨0, 0, 0⟩, ⟨1, 0, 0⟩, ⟨0, 0, 1⟩⟩

/-- Sketch u of the left end of a wall slot, from `add_wall_slots`:
`su_left = -(gx + slot_length / 2)` — a fixed mapping that consults no
orientation data. -/
noncomputable def wallSlotSuLeft (gx : ℝ) : ℝ := -(gx + (WALL_SLOT_LENGTH : ℝ) / 2)

/-- Sketch u of the centre of a wall slot under `add_wall_slots`'
fixed mapping. -/
noncomputable def wallSlotSuCenter (gx : ℝ) : ℝ := wallSlotSuLeft gx + (WALL_SLOT_LENGTH : ℝ) / 2

/-- Realized top-wall frame assumed by `add_wall_slots`' comment:
u = -X, v = +Z, origin (0, RACK_1U_HEIGHT, 0). -/
noncomputable def panelTopNegXFrame : PlanarFrame :=
  ⟨⟨0, (RACK_1U_HEIGHT : ℝ), 0⟩, ⟨-1, 0, 0⟩, ⟨0, 0, 1⟩⟩

/-- The opposite legitimate realized top-wall frame: u = +X, v = +Z. -/
noncomputable def panelTopPosXFrame : PlanarFrame :=
  ⟨⟨0, (RACK_1U_HEIGHT : ℝ), 0⟩, ⟨1, 0, 0⟩, ⟨0, 0, 1⟩⟩

/-- C2 counterexample: the wall-slot u mapping is fixed at authoring time,
so under the opposite legitimate realized orientation (u = +X) the slot
centre intended at global x = 31 lands at global x = -31; the claim that
the axis sign is never taken from an authoring-time assumption fails at
`add_wall_slots`. -/
theorem wall_slot_fixed_mapping_counterexample :
    (fromLocal panelTopNegXFrame (wallSlotSuCenter 31)
      ((WALL_SLOT_Z_CENTER : ℝ))).x = 31
    ∧ (fromLocal panelTopPosXFrame (wallSlotSuCenter 31)
      ((WALL_SLOT_Z_CENTER : ℝ))).x = -31
    ∧ ¬ ∀ F ∈ [panelTopNegXFrame, panelTopPosXFrame],
        (fromLocal F (wallSlotSuCenter 31) ((WALL_SLOT_Z_CENTER : ℝ))).x = 31 := by
  refine ⟨?_, ?_, ?_⟩
  · unfold fromLocal panelTopNegXFrame wallSlotSuCenter wallSlotSuLeft
      WALL_SLOT_LENGTH
    norm_num
  · unfold fromLocal panelTopPosXFrame wallSlotSuCenter wallSlotSuLeft
      WALL_SLOT_LENGTH
    norm_num
  · intro hall
    have h2 := hall panelTopPosXFrame (by simp)
    unfold fromLocal panelTopPosXFrame wallSlotSuCenter wallSlotSuLeft
      WALL_SLOT_LENGTH at h2
    norm_num at h2

/-- C2 (amended): for every orthonormal face frame and every point p in
the face plane, from_local (to_local p) reproduces p exactly (hence within
1e-6 mm); build_side_bar derives the u-axis sign from the realized
orientation at call time and places the recess centre at the intended
global x under either realized orientation; add_wall_slots instead uses a
fixed authoring-time mapping u = -X, correct only under the u = -X
realized frame. -/
theorem frame_mapping_roundtrip (F : PlanarFrame) (hF : Orthonormal F)
    (p : Vec3) (hp : InPlane F p) (cx cz gx zv : ℝ) :
    fromLocal F (toLocal F p).1 (toLocal F p).2 = p
    ∧ (fromLocal sideBarTopFrame
        (sideBarSU sideBarTopFrame.uax.x cx) cz).x = cx
    ∧ (fromLocal sideBarBottomFrame
        (sideBarSU sideBarBottomFrame.uax.x cx) cz).x = cx
    ∧ (fromLocal panelTopNegXFrame (wallSlotSuCenter gx) zv).x = gx := by
  refine ⟨?_, ?_, ?_, ?_⟩
  · obtain ⟨u, v, rfl⟩ := hp
    rw [toLocal_fromLocal F hF u v]
  · unfold sideBarTopFrame sideBarSU
    rw [if_pos (by norm_num)]
    unfold fromLocal
    norm_num
  · unfold sideBarBottomFrame sideBarSU
    rw [if_neg (by norm_num)]
    unfold fromLocal
    norm_num
  · unfold fromLocal panelTopNegXFrame wallSlotSuCenter wallSlotSuLeft
    ring_nf

/-- Witness for C2 (amended) at the side bar's realized top-face frame and
the concrete in-plane point (-2, 36, 3) = from_local 2 3. -/
theorem frame_mapping_roundtrip_witness :
    (Orthonormal sideBarTopFrame ∧ InPlane sideBarTopFrame ⟨-2, 36, 3⟩)
    ∧ (fromLocal sideBarTopFrame
        (toLocal sideBarTopFrame ⟨-2, 36, 3⟩).1
        (toLocal sideBarTopFrame ⟨-2, 36, 3⟩).2 = ⟨-2, 36, 3⟩
      ∧ (fromLocal sideBarTopFrame
          (sideBarSU sideBarTopFrame.uax.x 4) 6).x = 4
      ∧ (fromLocal sideBarBottomFrame
          (sideBarSU sideBarBottomFrame.uax.x 4) 6).x = 4
      ∧ (fromLocal panelTopNegXFrame (wallSlotSuCenter 31) 12).x = 31) := by
  have hF : Orthonormal sideBarTopFrame := by
    unfold Orthonormal sideBarTopFrame Vec3.dot
    norm_num
  have hp : InPlane sideBarTopFrame ⟨-2, 36, 3⟩ := by
    refine ⟨2, 3, ?_⟩
    unfold fromLocal sideBarTopFrame SIDEBAR_HEIGHT
    simp only [Vec3.mk.injEq]
    norm_num
  exact ⟨⟨hF, hp⟩, frame_mapping_roundtrip sideBarTopFrame hF ⟨-2, 36, 3⟩ hp 4 6 31 12⟩

/-! ## C3: face selection

The `add_wall_slots` search loop scans `tip.Shape.Faces` in order with
`abs(normal.y - 1.0) < 0.01 and abs(bb.YMin - 44.45) < 0.01 and
bb.XMax - bb.XMin > 200`, keeps the first hit and `break`s. -/

/-- The geometric data the selector loop inspects on one candidate face:
the unit normal's y component and the bounding box, as used by the
`add_wall_slots` top-face search. -/
structure FaceData where
  normalY : ℚ
  bbYMin : ℚ
  bbXMin : ℚ
  bbXMax : ℚ
deriving DecidableEq

/-- The predicate of the `add_wall_slots` search loop. -/
def isTopOuterFace (f : FaceData) : Bool :=
  decide (|f.normalY - 1| < 1 / 100)
    && decide (|f.bbYMin - RACK_1U_HEIGHT| < 1 / 100)
    && decide (f.bbXMax - f.bbXMin > 200)

/-- The search loop of `add_wall_slots` (and the analogous loops in
`build_side_bar`): scan the faces in order and return the index of the
first face satisfying the predicate — the loop breaks at the first hit —
or `none` when no face matches. -/
def findFirstFace : List FaceData → Option ℕ
  | [] => none
  | f :: rest =>
    if isTopOuterFace f then some 0
    else (findFirstFace rest).map (fun i => i + 1)

/-- A top outer face candidate of the finished centre panel. -/
def topOuterFaceA : FaceData := ⟨1, RACK_1U_HEIGHT, 0, PANEL_WIDTH⟩

/-- A second candidate with the same normal and YMin but a slightly
different extent, also satisfying the predicate. -/
def topOuterFaceB : FaceData := ⟨1, RACK_1U_HEIGHT, 1, PANEL_WIDTH⟩

/-- A side face that does not satisfy the predicate. -/
def sideFaceSample : FaceData := ⟨0, WALL_THICKNESS, 0, PANEL_WIDTH⟩

lemma topOuterFaceA_matches : isTopOuterFace topOuterFaceA = true := by
  simp only [isTopOuterFace, topOuterFaceA, RACK_1U_HEIGHT, PANEL_WIDTH,
    Bool.and_eq_true, decide_eq_true_eq]
  norm_num

lemma topOuterFaceB_matches : isTopOuterFace topOuterFaceB = true := by
  simp only [isTopOuterFace, topOuterFaceB, RACK_1U_HEIGHT, PANEL_WIDTH,
    Bool.and_eq_true, decide_eq_true_eq]
  norm_num

lemma sideFaceSample_no_match : isTopOuterFace sideFaceSample = false := by
  rw [Bool.eq_false_iff]
  intro h
  simp only [isTopOuterFace, sideFaceSample, RACK_1U_HEIGHT, PANEL_WIDTH,
    WALL_THICKNESS, Bool.and_eq_true, decide_eq_true_eq] at h
  norm_num at h

/-- C3 counterexample: with two candidate faces both satisfying the
predicate, the loop silently returns the first one instead of failing
with AmbiguousSelection. -/
theorem select_face_ambiguity_counterexample :
    List.countP (fun f => isTopOuterFace f) [topOuterFaceA, topOuterFaceB] = 2
    ∧ findFirstFace [topOuterFaceA, topOuterFaceB] = some 0 := by
  constructor
  · simp [List.countP_cons, topOuterFaceA_matches, topOuterFaceB_matches]
  · unfold findFirstFace
    rw [if_pos topOuterFaceA_matches]

/-- C3 (amended): the selector returns the first face satisfying the
predicate — `some i` exactly when face i matches and no earlier face does —
and `none` when no face matches (it raises no NoMatch error and never
detects ambiguity); in particular, when exactly one candidate matches it
returns that face. -/
theorem select_face_first_match (faces : List FaceData) :
    ((∀ f ∈ faces, isTopOuterFace f = false) → findFirstFace faces = none)
    ∧ (∀ i : ℕ, ∀ f : FaceData, faces.get? i = some f →
        isTopOuterFace f = true →
        (∀ j : ℕ, ∀ g : FaceData, j < i → faces.get? j = some g →
          isTopOuterFace g = false) →
        findFirstFace faces = some i) := by
  constructor
  · intro hall
    induction faces with
    | nil => rfl
    | cons a rest ih =>
      unfold findFirstFace
      rw [if_neg (by simp [hall a (by simp)])]
      rw [ih (fun f hf => hall f (by simp [hf]))]
      rfl
  · induction faces with
    | nil =>
      intro i f hget
      simp at hget
    | cons a rest ih =>
      intro i f hget hf hprev
      match i with
      | 0 =>
        simp at hget
        unfold findFirstFace
        rw [if_pos (by rw [hget]; exact hf)]
      | i + 1 =>
        have ha : isTopOuterFace a = false :=
          hprev 0 a (Nat.succ_pos i) rfl
        unfold findFirstFace
        rw [if_neg (by simp [ha])]
        have hrest := ih i f hget hf
          (fun j g hj hg => hprev (j + 1) g (by omega) hg)
        rw [hrest]
        rfl

/-- Witness for C3 (amended): a face list whose unique match sits at
index 1 is selected. -/
theorem select_face_first_match_witness :
    findFirstFace [sideFaceSample, topOuterFaceA] = some 1 :=
  (select_face_first_match [sideFaceSample, topOuterFaceA]).2 1 topOuterFaceA
    rfl topOuterFaceA_matches
    (fun j g hj hg => by
      match j with
      | 0 =>
        simp at hg
        rw [← hg]
        exact sideFaceSample_no_match
      | j + 1 => omega)

/-! ## C5 and C6: mirroring

`build_right_tab` copies the left tab's shape and applies
`transformGeometry` with the matrix A11 = -1, A14 = PANEL_WIDTH, i.e.
x ↦ PANEL_WIDTH - x.  `mirror_bracket` instead creates a parametric
`Part::Mirroring` object whose `Source` stays the source body, with plane
Normal (0,1,0) and Base (0, FRAME_LEG_WIDTH/2, 0), i.e. y ↦
FRAME_LEG_WIDTH - y. -/

/-- FRAME_LEG_WIDTH = 40.0 mm (from `prusa_rack_brackets.py`). -/
def FRAME_LEG_WIDTH : ℚ := 40.0

/-- RAIL_LEG_THICKNESS = 4.0 mm (from `prusa_rack_brackets.py`). -/
def RAIL_LEG_THICKNESS : ℚ := 4.0

/-- RAIL_LEG_HEIGHT = 39.0 mm (from `prusa_rack_brackets.py`). -/
def RAIL_LEG_HEIGHT : ℚ := 39.0

/-- An axis-aligned box [x1,x2] × [y1,y2] × [z1,z2] in millimetres — the
geometric elements our shape model is built from. -/
structure Box where
  x1 : ℚ
  x2 : ℚ
  y1 : ℚ
  y2 : ℚ
  z1 : ℚ
  z2 : ℚ
deriving DecidableEq

/-- Volume of a box. -/
def Box.volume (b : Box) : ℚ :=
  (b.x2 - b.x1) * (b.y2 - b.y1) * (b.z2 - b.z1)

/-- Image of a box under the `build_right_tab` mirror matrix
x ↦ PANEL_WIDTH - x. -/
def Box.mirrorPanelX (b : Box) : Box :=
  ⟨PANEL_WIDTH - b.x2, PANEL_WIDTH - b.x1, b.y1, b.y2, b.z1, b.z2⟩

/-- Image of a box under the `mirror_bracket` plane (Normal (0,1,0),
Base (0, FRAME_LEG_WIDTH/2, 0)): y ↦ FRAME_LEG_WIDTH - y. -/
def Box.mirrorBracketY (b : Box) : Box :=
  ⟨b.x1, b.x2, FRAME_LEG_WIDTH - b.y2, FRAME_LEG_WIDTH - b.y1, b.z1, b.z2⟩

/-- A shape as a list of geometric elements. -/
abbrev Solid := List Box

/-- Total volume of a shape. -/
def Solid.volume (s : Solid) : ℚ := (s.map Box.volume).sum

/-- `left_shape.transformGeometry(mirror_matrix)` applied to every
geometric element, as in `build_right_tab`. -/
def Solid.mirrorPanelX (s : Solid) : Solid := s.map Box.mirrorPanelX

/-- The shape produced by the `mirror_bracket` plane, element by element. -/
def Solid.mirrorBracketY (s : Solid) : Solid := s.map Box.mirrorBracketY

/-- A finished body: a document object id and its tip shape. -/
structure Body where
  id : ℕ
  tip : Solid
deriving DecidableEq

/-- The result of one of the two mirror operations: the produced shape
plus the live link a parametric `Part::Mirroring` feature keeps to the
source body (`none` for a plain transformed copy). -/
structure MirrorResult where
  shape : Solid
  sourceLink : Option ℕ
deriving DecidableEq

/-- `build_right_tab`: `left_tab.Shape.copy()` transformed by the mirror
matrix and assigned to a fresh `Part::Feature`; no reference to the
source body is retained. -/
def buildRightTabMirror (b : Body) : MirrorResult :=
  ⟨Solid.mirrorPanelX b.tip, none⟩

/-- `mirror_bracket`: a `Part::Mirroring` object with
`mirror.Source = source_body`; the displayed shape is derived from the
still-referenced source. -/
def mirrorBracket (b : Body) : MirrorResult :=
  ⟨Solid.mirrorBracketY b.tip, some b.id⟩

/-- The left tab body, abstracted: any id and tip. -/
def sampleLeftTab : Body := ⟨7, [⟨0, 12, 0, 44.45, -7, 0⟩]⟩

/-- C5 counterexample: `mirror_bracket` keeps a live reference to its
source body (`mirror.Source = source_body`), so the claim that every
mirror result shares no live object references with the source fails. -/
theorem mirror_shared_reference_counterexample :
    (mirrorBracket sampleLeftTab).sourceLink = some sampleLeftTab.id
    ∧ (mirrorBracket sampleLeftTab).sourceLink ≠ none := by
  exact ⟨rfl, by simp [mirrorBracket]⟩

/-- C5 (amended): `build_right_tab` yields an independent body — the
reflection transform applied to every geometric element of the source
tip, with no reference back to the source — while `mirror_bracket`
creates a parametric mirroring feature that keeps a live link to the
source body. -/
theorem mirror_independence (b : Body) :
    (buildRightTabMirror b).sourceLink = none
    ∧ (buildRightTabMirror b).shape = b.tip.map Box.mirrorPanelX
    ∧ (∀ i : ℕ, ((buildRightTabMirror b).shape).get? i
        = (b.tip.get? i).map Box.mirrorPanelX)
    ∧ (mirrorBracket b).sourceLink = some b.id := by
  refine ⟨rfl, rfl, ?_, rfl⟩
  intro i
  exact List.get?_map Box.mirrorPanelX b.tip i

/-- The `build_right_tab` mirror point map x ↦ PANEL_WIDTH - x on a
global point (the affine action of A11 = -1, A14 = PANEL_WIDTH). -/
noncomputable def mirrorPanelPoint (p : Vec3) : Vec3 :=
  ⟨(PANEL_WIDTH : ℝ) - p.x, p.y, p.z⟩

/-- Modelled from the spec: `mirror_body(body, plane_point, plane_normal)`
reflects a point across the plane through `q` with unit normal `n`. -/
noncomputable def reflectPoint (q n p : Vec3) : Vec3 :=
  ⟨p.x - 2 * ((p.sub q).dot n) * n.x,
   p.y - 2 * ((p.sub q).dot n) * n.y,
   p.z - 2 * ((p.sub q).dot n) * n.z⟩

lemma box_mirrorPanelX_involution (b : Box) :
    Box.mirrorPanelX (Box.mirrorPanelX b) = b := by
  simp [Box.mirrorPanelX]

lemma box_mirrorPanelX_volume (b : Box) :
    Box.volume (Box.mirrorPanelX b) = Box.volume b := by
  unfold Box.volume Box.mirrorPanelX
  ring

/-- C6: mirroring is an involution — the general plane reflection applied
twice is the identity, the `build_right_tab` point map applied twice is
the identity, the shape-level mirror applied twice returns the original
geometry — and the mirrored shape's volume equals the source volume. -/
theorem mirror_involution_and_volume (q n : Vec3) (hn : n.dot n = 1)
    (p : Vec3) (s : Solid) :
    reflectPoint q n (reflectPoint q n p) = p
    ∧ mirrorPanelPoint (mirrorPanelPoint p) = p
    ∧ Solid.mirrorPanelX (Solid.mirrorPanelX s) = s
    ∧ Solid.volume (Solid.mirrorPanelX s) = Solid.volume s := by
  refine ⟨?_, ?_, ?_, ?_⟩
  · obtain ⟨qx, qy, qz⟩ := q
    obtain ⟨nx, ny, nz⟩ := n
    obtain ⟨px, py, pz⟩ := p
    unfold Vec3.dot at hn
    simp only at hn
    unfold reflectPoint Vec3.sub Vec3.dot
    simp only [Vec3.mk.injEq]
    refine ⟨?_, ?_, ?_⟩
    · linear_combination (4 * ((px - qx) * nx + (py - qy) * ny
        + (pz - qz) * nz) * nx) * hn
    · linear_combination (4 * ((px - qx) * nx + (py - qy) * ny
        + (pz - qz) * nz) * ny) * hn
    · linear_combination (4 * ((px - qx) * nx + (py - qy) * ny
        + (pz - qz) * nz) * nz) * hn
  · unfold mirrorPanelPoint
    simp
  · unfold Solid.mirrorPanelX
    rw [List.map_map]
    have : Box.mirrorPanelX ∘ Box.mirrorPanelX = id := by
      funext b
      exact box_mirrorPanelX_involution b
    rw [this, List.map_id]
  · unfold Solid.mirrorPanelX Solid.volume
    rw [List.map_map]
    congr 1
    apply List.map_congr_left
    intro b _
    exact box_mirrorPanelX_volume b

/-- Witness for C6 at the `mirror_bracket` plane (point (0, 20, 0),
normal (0, 1, 0)), a concrete point and the sample left tab shape. -/
theorem mirror_involution_and_volume_witness :
    (Vec3.dot ⟨0, 1, 0⟩ ⟨0, 1, 0⟩ = 1)
    ∧ (reflectPoint ⟨0, 20, 0⟩ ⟨0, 1, 0⟩
        (reflectPoint ⟨0, 20, 0⟩ ⟨0, 1, 0⟩ ⟨3, 5, 11⟩) = ⟨3, 5, 11⟩
      ∧ mirrorPanelPoint (mirrorPanelPoint ⟨3, 5, 11⟩) = ⟨3, 5, 11⟩
      ∧ Solid.mirrorPanelX (Solid.mirrorPanelX sampleLeftTab.tip)
          = sampleLeftTab.tip
      ∧ Solid.volume (Solid.mirrorPanelX sampleLeftTab.tip)
          = Solid.volume sampleLeftTab.tip) := by
  have hn : Vec3.dot ⟨0, 1, 0⟩ ⟨0, 1, 0⟩ = 1 := by
    unfold Vec3.dot
    norm_num
  exact ⟨hn, mirror_involution_and_volume ⟨0, 20, 0⟩ ⟨0, 1, 0⟩ hn
    ⟨3, 5, 11⟩ sampleLeftTab.tip⟩

/-! ## C4: add_pad parameter validation

The scripts only set `pad.Length`; the validation lives in the Backend
collaborator, so the feature-tree operation is modelled from the spec
(section 4.4). -/

/-- Error taxonomy of section 7 (the part used here). -/
inductive EngineError where
  | invalidParameter
  | invalidProfile
  | disjointCut
deriving DecidableEq

/-- A closed rectangular profile on the plane z = z0. -/
structure PlanarProfile where
  px1 : ℚ
  px2 : ℚ
  py1 : ℚ
  py2 : ℚ
  z0 : ℚ
deriving DecidableEq

/-- The solid swept by extruding a profile along its plane normal by
distance d (negated if reversed). -/
def padBox (pr : PlanarProfile) (d : ℚ) (rev : Bool) : Box :=
  if rev then ⟨pr.px1, pr.px2, pr.py1, pr.py2, pr.z0 - d, pr.z0⟩
  else ⟨pr.px1, pr.px2, pr.py1, pr.py2, pr.z0, pr.z0 + d⟩

/-- Modelled from the spec: `add_pad(body, sketch, distance, reversed)` —
fails InvalidParameter if distance ≤ 0, otherwise extrudes the profile
and unions it with the tip.  Returns the (possibly unchanged) body and
the error, if any. -/
def addPad (b : Body) (pr : PlanarProfile) (d : ℚ) (rev : Bool) :
    Body × Option EngineError :=
  if d ≤ 0 then (b, some EngineError.invalidParameter)
  else ({ id := b.id, tip := b.tip ++ [padBox pr d rev] }, none)

/-- C4: add_pad with distance ≤ 0 fails with InvalidParameter and leaves
the body's tip unchanged. -/
theorem add_pad_nonpositive_distance (b : Body) (pr : PlanarProfile)
    (d : ℚ) (rev : Bool) (hd : d ≤ 0) :
    addPad b pr d rev = (b, some EngineError.invalidParameter)
    ∧ (addPad b pr d rev).1.tip = b.tip := by
  unfold addPad
  rw [if_pos hd]
  exact ⟨rfl, rfl⟩

/-- The FacePlateSketch profile (0,0)–(212, 44.45) on z = 0. -/
def facePlateProfile : PlanarProfile :=
  ⟨0, PANEL_WIDTH, 0, RACK_1U_HEIGHT, 0⟩

/-- A fresh centre-panel body before its first pad. -/
def centerPanelSeed : Body := ⟨0, []⟩

/-- Witness for C4: the scenario `add_pad(..., distance=0)`. -/
theorem add_pad_zero_distance_witness :
    (0 : ℚ) ≤ 0
    ∧ (addPad centerPanelSeed facePlateProfile 0 false
        = (centerPanelSeed, some EngineError.invalidParameter)
      ∧ (addPad centerPanelSeed facePlateProfile 0 false).1.tip
        = centerPanelSeed.tip) :=
  ⟨le_refl 0,
    add_pad_nonpositive_distance centerPanelSeed facePlateProfile 0 false
      (le_refl 0)⟩

/-! ## C7: through-all pockets

`TopSlotPocket` and `FrameHolesPocket` set `Type = 1` / `"ThroughAll"`;
the sweep-length computation is the Backend collaborator's, modelled from
the spec: the length exceeds the tip's extent along the sweep axis. -/

/-- A global point in millimetres with rational coordinates. -/
structure Pt3 where
  x : ℚ
  y : ℚ
  z : ℚ
deriving DecidableEq

/-- Point membership in a box. -/
def Box.contains (b : Box) (p : Pt3) : Prop :=
  b.x1 ≤ p.x ∧ p.x ≤ b.x2 ∧ b.y1 ≤ p.y ∧ p.y ≤ b.y2
    ∧ b.z1 ≤ p.z ∧ p.z ≤ b.z2

instance (b : Box) (p : Pt3) : Decidable (Box.contains b p) := by
  unfold Box.contains
  infer_instance

/-- Point membership in a shape. -/
def Solid.containsPt (s : Solid) (p : Pt3) : Prop :=
  ∃ b ∈ s, Box.contains b p

instance (s : Solid) (p : Pt3) : Decidable (Solid.containsPt s p) := by
  unfold Solid.containsPt
  exact List.decidableBEx _ s

/-- Lower bound of the shape along y (0 for the empty shape). -/
def Solid.yMinOf : Solid → ℚ
  | [] => 0
  | b :: rest => min b.y1 (Solid.yMinOf rest)

/-- Upper bound of the shape along y (0 for the empty shape). -/
def Solid.yMaxOf : Solid → ℚ
  | [] => 0
  | b :: rest => max b.y2 (Solid.yMaxOf rest)

lemma yMinOf_le_of_mem (s : Solid) (b : Box) (hb : b ∈ s) (p : Pt3)
    (hp : Box.contains b p) : Solid.yMinOf s ≤ p.y := by
  induction s with
  | nil => cases hb
  | cons a rest ih =>
    unfold Solid.yMinOf
    rcases List.mem_cons.mp hb with h | h
    · subst h
      exact le_trans (min_le_left _ _) hp.2.2.1
    · exact le_trans (min_le_right _ _) (ih h)

lemma le_yMaxOf_of_mem (s : Solid) (b : Box) (hb : b ∈ s) (p : Pt3)
    (hp : Box.contains b p) : p.y ≤ Solid.yMaxOf s := by
  induction s with
  | nil => cases hb
  | cons a rest ih =>
    unfold Solid.yMaxOf
    rcases List.mem_cons.mp hb with h | h
    · subst h
      exact le_trans hp.2.2.2.1 (le_max_left _ _)
    · exact le_trans (ih h) (le_max_right _ _)

/-- Modelled from the spec: the sweep length `through_all` computes —
"guaranteed to exceed the tip's extent along the sweep axis". -/
def throughAllLen (s : Solid) : ℚ :=
  Solid.yMaxOf s - Solid.yMinOf s + 1

/-- A rectangular through-cut footprint in the (x,z) plane. -/
structure Footprint where
  fx1 : ℚ
  fx2 : ℚ
  fz1 : ℚ
  fz2 : ℚ
deriving DecidableEq

/-- The footprint covers the (x,z) position. -/
def Footprint.contains (fp : Footprint) (x z : ℚ) : Prop :=
  fp.fx1 ≤ x ∧ x ≤ fp.fx2 ∧ fp.fz1 ≤ z ∧ z ≤ fp.fz2

instance (fp : Footprint) (x z : ℚ) : Decidable (Footprint.contains fp x z) := by
  unfold Footprint.contains
  infer_instance

/-- A pocket swept from start height y0 down a length L removes the
footprint prism over y ∈ [y0 - L, y0]; membership in the resulting
solid. -/
def afterPocket (s : Solid) (fp : Footprint) (y0 L : ℚ) (p : Pt3) : Prop :=
  Solid.containsPt s p
    ∧ ¬ (Footprint.contains fp p.x p.z ∧ y0 - L ≤ p.y ∧ p.y ≤ y0)

/-- Modelled from the spec: a through-all pocket sweeps from the tip's
top y extent down the computed through-all length. -/
def afterThroughAllPocket (s : Solid) (fp : Footprint) (p : Pt3) : Prop :=
  afterPocket s fp (Solid.yMaxOf s) (throughAllLen s) p

/-- C7: the through-all sweep length strictly exceeds the tip's y extent,
and the cut leaves zero material within the swept footprint across the
body's full extent: no point of the tip inside the footprint survives. -/
theorem through_all_full_penetration (s : Solid) (fp : Footprint) (p : Pt3)
    (hmem : Solid.containsPt s p) (hfp : Footprint.contains fp p.x p.z) :
    throughAllLen s > Solid.yMaxOf s - Solid.yMinOf s
    ∧ ¬ afterThroughAllPocket s fp p := by
  constructor
  · unfold throughAllLen
    linarith
  · intro hafter
    obtain ⟨-, hnot⟩ := hafter
    apply hnot
    obtain ⟨b, hb, hpb⟩ := hmem
    refine ⟨hfp, ?_, le_yMaxOf_of_mem s b hb p hpb⟩
    have := yMinOf_le_of_mem s b hb p hpb
    unfold throughAllLen
    linarith

/-- Bottom wall of the centre panel: y ∈ [0, 4], z ∈ [4, 38]. -/
def bottomWallBox : Box :=
  ⟨0, PANEL_WIDTH, 0, WALL_THICKNESS, FACE_PLATE_THICKNESS,
   FACE_PLATE_THICKNESS + SHELF_DEPTH⟩

/-- Top wall of the centre panel: y ∈ [40.45, 44.45], z ∈ [4, 38]. -/
def topWallBox : Box :=
  ⟨0, PANEL_WIDTH, RACK_1U_HEIGHT - WALL_THICKNESS, RACK_1U_HEIGHT,
   FACE_PLATE_THICKNESS, FACE_PLATE_THICKNESS + SHELF_DEPTH⟩

/-- Face plate of the centre panel: z ∈ [0, 4]. -/
def facePlateBox : Box :=
  ⟨0, PANEL_WIDTH, 0, RACK_1U_HEIGHT, 0, FACE_PLATE_THICKNESS⟩

/-- The centre panel material the slot sweep passes through. -/
def centerPanelWalls : Solid := [facePlateBox, bottomWallBox, topWallBox]

/-- The wall-slot footprint at global slot centre gx, from
`add_wall_slots`: x ∈ [gx - 6, gx + 6], z ∈ [10.3, 13.7]. -/
def slotFootprint (gx : ℚ) : Footprint :=
  ⟨gx - WALL_SLOT_LENGTH / 2, gx + WALL_SLOT_LENGTH / 2,
   WALL_SLOT_Z_CENTER - WALL_SLOT_WIDTH / 2,
   WALL_SLOT_Z_CENTER + WALL_SLOT_WIDTH / 2⟩

/-- Witness for C7: the slot at gx = 31 pocketed through-all from the top
wall face removes material of both the top wall (point (31, 42, 12)) and
the bottom wall (point (31, 2, 12)). -/
theorem through_all_full_penetration_witness :
    (Solid.containsPt centerPanelWalls ⟨31, 42, 12⟩
      ∧ Footprint.contains (slotFootprint 31) 31 12
      ∧ ¬ afterThroughAllPocket centerPanelWalls (slotFootprint 31)
          ⟨31, 42, 12⟩)
    ∧ (Solid.containsPt centerPanelWalls ⟨31, 2, 12⟩
      ∧ Footprint.contains (slotFootprint 31) 31 12
      ∧ ¬ afterThroughAllPocket centerPanelWalls (slotFootprint 31)
          ⟨31, 2, 12⟩) := by
  have hfp : Footprint.contains (slotFootprint 31) 31 12 := by
    unfold Footprint.contains slotFootprint WALL_SLOT_LENGTH
      WALL_SLOT_Z_CENTER WALL_SLOT_WIDTH
    norm_num
  have htop : Solid.containsPt centerPanelWalls ⟨31, 42, 12⟩ := by
    refine ⟨topWallBox, by simp [centerPanelWalls], ?_⟩
    unfold Box.contains topWallBox PANEL_WIDTH RACK_1U_HEIGHT
      WALL_THICKNESS FACE_PLATE_THICKNESS SHELF_DEPTH
    norm_num
  have hbot : Solid.containsPt centerPanelWalls ⟨31, 2, 12⟩ := by
    refine ⟨bottomWallBox, by simp [centerPanelWalls], ?_⟩
    unfold Box.contains bottomWallBox PANEL_WIDTH WALL_THICKNESS
      FACE_PLATE_THICKNESS SHELF_DEPTH
    norm_num
  refine ⟨⟨htop, hfp, ?_⟩, ⟨hbot, hfp, ?_⟩⟩
  · exact (through_all_full_penetration centerPanelWalls (slotFootprint 31)
      ⟨31, 42, 12⟩ htop hfp).2
  · exact (through_all_full_penetration centerPanelWalls (slotFootprint 31)
      ⟨31, 2, 12⟩ hbot hfp).2

/-! ## C8: the profile invariant

`create_top_bracket_left` fills `RailExtensionSketch` with four line
segments; `create_bottom_bracket_left` creates `BottomRailExtensionSketch`
and immediately pads it without adding any geometry. -/

/-- One 2D geometry element added to a sketch. -/
inductive SketchGeom where
  | lineSeg (p q : ℚ × ℚ)
  | circle (c : ℚ × ℚ) (r : ℚ)
deriving DecidableEq

/-- Endpoints of a segment element; `none` for a circle. -/
def segEnds : SketchGeom → Option ((ℚ × ℚ) × (ℚ × ℚ))
  | SketchGeom.lineSeg p q => some (p, q)
  | SketchGeom.circle _ _ => none

/-- A profile consisting of one circular primitive. -/
def isSingleCircle : List SketchGeom → Bool
  | [SketchGeom.circle _ _] => true
  | _ => false

/-- Each segment's end coincides with the next segment's start. -/
def consecutiveJoined : List ((ℚ × ℚ) × (ℚ × ℚ)) → Bool
  | [] => true
  | [_] => true
  | a :: b :: rest => decide (a.2 = b.1) && consecutiveJoined (b :: rest)

/-- A closed loop: at least 3 joined segments over distinct vertices,
wrapping back to the first vertex. -/
def closedLoop (ps : List ((ℚ × ℚ) × (ℚ × ℚ))) : Bool :=
  match ps with
  | [] => false
  | a :: _ =>
    consecutiveJoined ps
      && (match ps.getLast? with
          | some l => decide (l.2 = a.1)
          | none => false)
      && decide (3 ≤ ps.length)
      && decide ((ps.map Prod.fst).Nodup)

/-- Endpoint pairs of a pure line-segment profile; `none` when a circle
appears among the elements. -/
def segPoints : List SketchGeom → Option (List ((ℚ × ℚ) × (ℚ × ℚ)))
  | [] => some []
  | g :: rest =>
    match segEnds g, segPoints rest with
    | some pr, some ps => some (pr :: ps)
    | _, _ => none

/-- Modelled from the spec: the profile invariant of section 3 — a single
circular primitive, or a closed chain of at least 3 line segments over
distinct vertices; in particular the geometry is nonempty. -/
def profileInvariant (g : List SketchGeom) : Bool :=
  isSingleCircle g
    || (match segPoints g with
        | some ps => closedLoop ps
        | none => false)

/-- Geometry added to `RailExtensionSketch` in `create_top_bracket_left`:
the four sides of the RAIL_LEG_THICKNESS × RAIL_LEG_HEIGHT rectangle. -/
def railExtensionSketchGeom : List SketchGeom :=
  [SketchGeom.lineSeg (0, 0) (RAIL_LEG_THICKNESS, 0),
   SketchGeom.lineSeg (RAIL_LEG_THICKNESS, 0)
     (RAIL_LEG_THICKNESS, RAIL_LEG_HEIGHT),
   SketchGeom.lineSeg (RAIL_LEG_THICKNESS, RAIL_LEG_HEIGHT)
     (0, RAIL_LEG_HEIGHT),
   SketchGeom.lineSeg (0, RAIL_LEG_HEIGHT) (0, 0)]

/-- Geometry added to `BottomRailExtensionSketch` in
`create_bottom_bracket_left`: none — the sketch is padded by
`BottomRailExtensionPad` with no geometry in it. -/
def bottomRailExtensionSketchGeom : List SketchGeom := []

/-- C8 (code bug): the top bracket's rail-extension profile satisfies the
profile invariant, but `create_bottom_bracket_left` issues
`BottomRailExtensionPad` over a sketch whose geometry list is empty,
violating the invariant that no feature is issued over a profile with no
geometry. -/
theorem bottom_rail_extension_empty_profile :
    profileInvariant railExtensionSketchGeom = true
    ∧ bottomRailExtensionSketchGeom = []
    ∧ profileInvariant bottomRailExtensionSketchGeom = false := by
  refine ⟨?_, rfl, rfl⟩
  show profileInvariant railExtensionSketchGeom = true
  norm_num [profileInvariant, railExtensionSketchGeom, segPoints, segEnds,
    isSingleCircle, closedLoop, consecutiveJoined, List.getLast?,
    RAIL_LEG_THICKNESS, RAIL_LEG_HEIGHT, List.nodup_cons, List.mem_cons,
    Prod.ext_iff]

/-! ## C9: backend failure handling

`execute` raises `RuntimeError("FreeCAD error: {err}\n{tb}")` on
`success=false`; `main()` runs the build steps strictly in order with no
exception handler, so the first failure aborts everything after it, and
an uncaught Python exception exits with a nonzero status.  STL export is
the last step of the sequence. -/

/-- A backend reply as returned over the RPC bridge. -/
structure BackendResult where
  success : Bool
  errorMessage : String
  errorTraceback : String
deriving DecidableEq

/-- `execute(proxy, code)`: ok on success, otherwise the raised error
text, `"FreeCAD error: "` followed by the collaborator's message and
traceback. -/
def executeStep (r : BackendResult) : Except String Unit :=
  if r.success then Except.ok ()
  else Except.error
    ("FreeCAD error: " ++ r.errorMessage ++ "\n" ++ r.errorTraceback)

/-- The main() run: issue the backend call of each step in order,
stopping at the first failure (the uncaught RuntimeError aborts the
sequence).  Returns the steps actually issued and the error, if any. -/
def runSteps (backend : ℕ → BackendResult) : List ℕ → List ℕ × Option String
  | [] => ([], none)
  | s :: rest =>
    match executeStep (backend s) with
    | Except.ok _ =>
      let r := runSteps backend rest
      (s :: r.1, r.2)
    | Except.error msg => ([s], some msg)

/-- Exit status of the script process: nonzero iff the run raised. -/
def exitCode (err : Option String) : ℕ :=
  match err with
  | some _ => 1
  | none => 0

/-- The main() sequence issues 18 backend calls; STL export
(`export_stls`) is the last one, index 17. -/
def mainStepSequence : List ℕ :=
  [0, 1, 2, 3, 4, 5, 6, 7, 8, 9, 10, 11, 12, 13, 14, 15, 16, 17]

/-- Index of the `export_stls` call in `mainStepSequence`. -/
def exportStepIndex : ℕ := 17

/-- C9: when the backend reports success=false at some step, the run
raises an error carrying the collaborator's message and traceback, issues
exactly the steps up to and including the failing one (fail-fast, no
retry), and terminates with a nonzero exit status; steps after the
failure — the export among them — are never issued. -/
theorem backend_failure_fail_fast (backend : ℕ → BackendResult)
    (good : List ℕ) (bad : ℕ) (rest : List ℕ)
    (hgood : ∀ s ∈ good, (backend s).success = true)
    (hbad : (backend bad).success = false) :
    runSteps backend (good ++ bad :: rest)
      = (good ++ [bad],
         some ("FreeCAD error: " ++ (backend bad).errorMessage ++ "\n"
           ++ (backend bad).errorTraceback))
    ∧ exitCode (runSteps backend (good ++ bad :: rest)).2 ≠ 0
    ∧ ∀ s ∈ rest, s ∉ good → s ≠ bad →
        s ∉ (runSteps backend (good ++ bad :: rest)).1 := by
  have hrun : runSteps backend (good ++ bad :: rest)
      = (good ++ [bad],
         some ("FreeCAD error: " ++ (backend bad).errorMessage ++ "\n"
           ++ (backend bad).errorTraceback)) := by
    induction good with
    | nil =>
      simp only [List.nil_append, runSteps, executeStep]
      rw [hbad]
      simp
    | cons a tail ih =>
      have ha : (backend a).success = true := hgood a (by simp)
      have htail := ih (fun s hs => hgood s (by simp [hs]))
      simp only [List.cons_append, runSteps, executeStep]
      rw [ha]
      simp [htail]
  refine ⟨hrun, ?_, ?_⟩
  · rw [hrun]
    unfold exitCode
    simp
  · intro s hs hsg hsb
    rw [hrun]
    simp only [List.mem_append, List.mem_singleton]
    rintro (h | h)
    · exact hsg h
    · exact hsb h

/-- A concrete backend trace: the first three calls succeed, the fourth
fails with a kernel message and traceback. -/
def sampleBackend : ℕ → BackendResult := fun n =>
  if n < 3 then ⟨true, "", ""⟩
  else ⟨false, "BRep_API: command not done", "Traceback (most recent call last)"⟩

/-- Witness for C9: the sample backend fails at step 3 of the main
sequence; only steps 0–3 are issued, the error carries the message and
traceback, the exit status is nonzero, and the export step 17 is not
issued. -/
theorem backend_failure_fail_fast_witness :
    (runSteps sampleBackend ([0, 1, 2] ++ 3 :: [4, 5, 6, 7, 8, 9, 10, 11,
        12, 13, 14, 15, 16, 17])
      = ([0, 1, 2] ++ [3],
         some ("FreeCAD error: " ++ (sampleBackend 3).errorMessage ++ "\n"
           ++ (sampleBackend 3).errorTraceback))
      ∧ exitCode (runSteps sampleBackend ([0, 1, 2] ++ 3 :: [4, 5, 6, 7, 8,
          9, 10, 11, 12, 13, 14, 15, 16, 17])).2 ≠ 0
      ∧ ∀ s ∈ [4, 5, 6, 7, 8, 9, 10, 11, 12, 13, 14, 15, 16, 17],
          s ∉ [0, 1, 2] → s ≠ 3 →
          s ∉ (runSteps sampleBackend ([0, 1, 2] ++ 3 :: [4, 5, 6, 7, 8, 9,
            10, 11, 12, 13, 14, 15, 16, 17])).1)
    ∧ ([0, 1, 2] ++ 3 :: [4, 5, 6, 7, 8, 9, 10, 11, 12, 13, 14, 15, 16, 17]
        = mainStepSequence)
    ∧ exportStepIndex ∈ [4, 5, 6, 7, 8, 9, 10, 11, 12, 13, 14, 15, 16, 17] := by
  refine ⟨backend_failure_fail_fast sampleBackend [0, 1, 2] 3
    [4, 5, 6, 7, 8, 9, 10, 11, 12, 13, 14, 15, 16, 17] ?_ ?_, rfl, by decide⟩
  · intro s hs
    fin_cases hs <;> rfl
  · rfl

/-! ## C10: nut recess depth versus face plate thickness

`NutRecessPocket` is a finite pocket of `Length = NUT_RECESS_DEPTH` cut
from `Face6`, the back face of the face plate at z = FACE_PLATE_THICKNESS;
`JointHolesPocket` has `Type = 1` (through all). -/

/-- A pocket feature record: through-all flag (Type = 1) and, for finite
pockets, the depth. -/
structure PocketFeature where
  throughAll : Bool
  depth : ℚ
deriving DecidableEq

/-- `NutRecessPocket`: `Length = NUT_RECESS_DEPTH`, finite. -/
def nutRecessPocket : PocketFeature := ⟨false, NUT_RECESS_DEPTH⟩

/-- `JointHolesPocket`: `Type = 1`, through all. -/
def jointHolesPocket : PocketFeature := ⟨true, 0⟩

/-- The four joint screw positions of `build_center_panel`:
(JOINT_SCREW_X, y) and (PANEL_WIDTH - JOINT_SCREW_X, y) for each y. -/
def jointScrewPositions : List (ℚ × ℚ) :=
  (JOINT_SCREW_Y_POSITIONS.map fun y => [(JOINT_SCREW_X, y),
    (PANEL_WIDTH - JOINT_SCREW_X, y)]).flatten

/-- z-interval of the material removed by the nut recess at any screw
position: depth `nutRecessPocket.depth` cut from the back face
z = FACE_PLATE_THICKNESS. -/
def nutRecessZSpan : ℚ × ℚ :=
  (FACE_PLATE_THICKNESS - nutRecessPocket.depth, FACE_PLATE_THICKNESS)

/-- C10: at each of the four joint screw positions the nut recess is 1.5
mm deep, strictly less than the 4 mm face plate, its floor stays 2.5 mm
in front of the front face z = 0 (so the recess never penetrates the
front face), and only the clearance-hole pocket is through-all. -/
theorem nut_recess_depth_safe :
    nutRecessPocket.depth = 3 / 2
    ∧ FACE_PLATE_THICKNESS = 4
    ∧ nutRecessPocket.depth < FACE_PLATE_THICKNESS
    ∧ nutRecessZSpan.1 = 5 / 2
    ∧ 0 < nutRecessZSpan.1
    ∧ nutRecessPocket.throughAll = false
    ∧ jointHolesPocket.throughAll = true
    ∧ jointScrewPositions.length = 4 := by
  refine ⟨?_, ?_, ?_, ?_, ?_, rfl, rfl, rfl⟩
  · unfold nutRecessPocket NUT_RECESS_DEPTH
    norm_num
  · unfold FACE_PLATE_THICKNESS
    norm_num
  · unfold nutRecessPocket NUT_RECESS_DEPTH FACE_PLATE_THICKNESS
    norm_num
  · unfold nutRecessZSpan nutRecessPocket FACE_PLATE_THICKNESS
      NUT_RECESS_DEPTH
    norm_num
  · unfold nutRecessZSpan nutRecessPocket FACE_PLATE_THICKNESS
      NUT_RECESS_DEPTH
    norm_num

end OfficeCAD
